import Mathlib

/-!
Verification of the story-matching engine of the digital-twins bot.

The development shallowly embeds the Python sources `src/core/story_matcher.py`
and `src/core/bot.py` (plus the default chat memory of
`src/storage/storage_manager.py`).  Python floats are modelled as rationals
(`ℚ`); every remote call (OpenAI embedding, Supabase vector RPC, the two GPT
judge calls, and `json.loads`) is passed in as an explicit oracle function so
that success and failure of each remote dependency can be quantified over.
Observable effects that the theorems speak about (the exact search-request
record sent to the vector store, whether the judge was invoked, whether a
search error was logged) are returned alongside the results.
-/

/-- `Story` dataclass from `src/models/story.py`. -/
structure Story where
  id : String
  bot_id : String
  title : String
  content : String
  themes : List String
  triggers : List String
  emotional_tone : String
  context_hints : List String
  used_count : Nat
  last_used : Option String
deriving DecidableEq, Repr

/-- `ChatMemory` dataclass from `src/models/chat_memory.py`. -/
structure ChatMemory where
  chat_id : String
  bot_id : String
  stories_shared : List String
  conversation_themes : List String
  user_interests : List String
  last_interaction : String
  message_count : Nat
  relationship_stage : String
deriving DecidableEq, Repr

/-- `StoryMatch` dataclass from `src/core/story_matcher.py` (lines 14-22). -/
structure StoryMatch where
  story : Story
  vector_similarity : ℚ
  llm_judge_score : ℚ
  reasoning : String
  context_factors : List String
  distance : ℚ
deriving DecidableEq, Repr

/-- The `combined_score` property of `StoryMatch`
(`src/core/story_matcher.py` lines 24-31):
`0.5 * vector_similarity + 0.4 * llm_judge_score + 0.1 * (1.0 - min(distance, 1.0))`. -/
def StoryMatch.combined_score (m : StoryMatch) : ℚ :=
  1/2 * m.vector_similarity + 2/5 * m.llm_judge_score + 1/10 * (1 - min m.distance 1)

/-- One row returned by the Supabase `match_stories` RPC (the dict consumed by
`_parse_llm_response`, `_create_fallback_matches`, and
`_evaluate_story_sharing_appropriateness`). -/
structure Candidate where
  story_id : String
  bot_id : String
  title : String
  content : String
  themes : List String
  triggers : List String
  emotional_tone : String
  context_hints : List String
  used_count : Nat
  similarity : ℚ
  distance : ℚ
deriving DecidableEq, Repr

/-- The argument record of the `match_stories` RPC call issued by
`_vector_similarity_search` (`src/core/story_matcher.py` lines 204-213). -/
structure SearchParams where
  query_embedding : List ℚ
  bot_id : String
  excluded_story_ids : List String
  match_threshold : ℚ
  match_count : Nat
deriving DecidableEq, Repr

/-- Reconstruction of a `Story` object from a candidate row, as done in
`_parse_llm_response`, `_create_fallback_matches` and
`_evaluate_story_sharing_appropriateness`; `last_used` keeps its dataclass
default `None`. -/
def candidate_story (c : Candidate) : Story :=
  { id := c.story_id
    bot_id := c.bot_id
    title := c.title
    content := c.content
    themes := c.themes
    triggers := c.triggers
    emotional_tone := c.emotional_tone
    context_hints := c.context_hints
    used_count := c.used_count
    last_used := none }

/-- One entry of the `"evaluations"` array of the bulk-judgment JSON payload.
Each field is optional, mirroring the `evaluation.get(key, default)` accesses
in `_parse_llm_response`; `story_index` is an integer in the payload. -/
structure Evaluation where
  story_index : Option Int
  score : Option ℚ
  reasoning : Option String
  factors : Option (List String)
deriving DecidableEq, Repr

/-- The bulk-judgment JSON payload; `evaluations` is optional, mirroring
`judgment_data.get("evaluations", [])`. -/
structure JudgmentData where
  evaluations : Option (List Evaluation)
deriving DecidableEq, Repr

/-- The single-candidate appropriateness JSON payload consumed by
`_evaluate_story_sharing_appropriateness`; fields optional per the
`judgment.get(key, default)` accesses (`should_share_now` is present in the
requested format but never read by the code). -/
structure ApproJudgment where
  appropriateness_score : Option ℚ
  reasoning : Option String
  factors : Option (List String)
  should_share_now : Option Bool
deriving DecidableEq, Repr

/-- The left brace character, `'\x7b'`. -/
def lbrace : Char := Char.ofNat 123

/-- The right brace character, `'\x7d'`. -/
def rbrace : Char := Char.ofNat 125

/-- Index of the first occurrence of a character, if any. -/
def first_idx : List Char → Char → Option Nat
  | [], _ => none
  | a :: t, c => if a = c then some 0 else (first_idx t c).map (· + 1)

/-- Python `str.find(ch)`: index of the first occurrence, `-1` if absent. -/
def py_find (l : List Char) (c : Char) : Int :=
  match first_idx l c with
  | some i => (i : Int)
  | none => -1

/-- Python `str.rfind(ch)`: index of the last occurrence, `-1` if absent. -/
def py_rfind (l : List Char) (c : Char) : Int :=
  match first_idx l.reverse c with
  | some i => (l.length : Int) - 1 - (i : Int)
  | none => -1

/-- Python slice `s[a:b]` with step 1, including the negative-index and
clamping semantics. -/
def py_slice (l : List Char) (a b : Int) : List Char :=
  let n : Int := l.length
  let a' : Int := if a < 0 then max 0 (n + a) else min a n
  let b' : Int := if b < 0 then max 0 (n + b) else min b n
  (l.take b'.toNat).drop a'.toNat

/-- The JSON-substring extraction shared by `_parse_llm_response` (lines
502-504) and `_evaluate_story_sharing_appropriateness` (lines 326-328):
`start = s.find(l); end = s.rfind(r) + 1; s[start:end]` for the two braces. -/
def extract_json (s : String) : String :=
  ⟨py_slice s.data (py_find s.data lbrace) (py_rfind s.data rbrace + 1)⟩

/-- The fixed fallback marker string of `_create_fallback_matches`
(`src/core/story_matcher.py` line 566). -/
def fallback_marker : String := "Vector similarity only (LLM judge unavailable)"

/-- `_create_fallback_matches` (`src/core/story_matcher.py` lines 545-573):
one vector-only `StoryMatch` per candidate. -/
def create_fallback_matches (candidates : List Candidate) : List StoryMatch :=
  candidates.map fun c =>
    { story := candidate_story c
      vector_similarity := c.similarity
      llm_judge_score := c.similarity
      reasoning := fallback_marker
      context_factors := ["vector_similarity"]
      distance := c.distance }

/-- Construction of a judged `StoryMatch` from a candidate and one evaluation
entry, with the `.get` defaults of `_parse_llm_response` (lines 528-535). -/
def judged_match (c : Candidate) (ev : Evaluation) : StoryMatch :=
  { story := candidate_story c
    vector_similarity := c.similarity
    llm_judge_score := ev.score.getD 0
    reasoning := ev.reasoning.getD "No reasoning provided"
    context_factors := ev.factors.getD []
    distance := c.distance }

/-- The `for evaluation in judgment_data.get("evaluations", [])` loop of
`_parse_llm_response` (lines 509-537): `story_idx = get("story_index", 1) - 1`,
keep the entry only when `0 <= story_idx < len(candidates)`. -/
def process_evaluations (candidates : List Candidate) :
    List Evaluation → List StoryMatch
  | [] => []
  | ev :: rest =>
      let idx : Int := ev.story_index.getD 1 - 1
      if h : 0 ≤ idx ∧ idx.toNat < candidates.length then
        judged_match (candidates.get ⟨idx.toNat, h.2⟩) ev ::
          process_evaluations candidates rest
      else
        process_evaluations candidates rest

/-- `_parse_llm_response` (`src/core/story_matcher.py` lines 497-543).
`json_loads` is the oracle for Python's `json.loads` applied to the extracted
substring, together with the dict-shaped accesses on the decoded value; it
returns `none` exactly when that Python code would raise (invalid JSON, or a
decoded value whose shape makes the `.get` accesses or the index comparison
raise), in which case the `except` branch returns the fallback matches. -/
def parse_llm_response (json_loads : String → Option JudgmentData)
    (llm_response : String) (candidates : List Candidate) : List StoryMatch :=
  match json_loads (extract_json llm_response) with
  | some data => process_evaluations candidates (data.evaluations.getD [])
  | none => create_fallback_matches candidates

/-- The `stage_multipliers` dict lookup with default `1.0`
(`_make_sharing_decision`, lines 385-391). -/
def stage_multiplier (stage : String) : ℚ :=
  if stage = "new" then 7/10
  else if stage = "warming_up" then 1
  else if stage = "familiar" then 6/5
  else 1

/-- The dict returned by `_make_sharing_decision`. -/
structure Decision where
  should_share : Bool
  confidence : ℚ
  reasoning : String
deriving DecidableEq, Repr

/-- `_make_sharing_decision` (`src/core/story_matcher.py` lines 378-413).
The numeric interpolation `f"{adjusted_confidence:.3f}"` in the reasoning
strings is rendered via `toString` of the rational; no theorem depends on the
rendering. -/
def make_sharing_decision (story_match : StoryMatch) (chat_memory : ChatMemory) :
    Decision :=
  let base_confidence := story_match.combined_score
  let adjusted₁ := base_confidence * stage_multiplier chat_memory.relationship_stage
  let adjusted_confidence :=
    if chat_memory.stories_shared.length ≥ 3 then adjusted₁ * (4/5) else adjusted₁
  let threshold : ℚ := 3/5
  let should_share : Bool := adjusted_confidence ≥ threshold
  let reasoning :=
    if should_share then
      "Story sharing appropriate: " ++ story_match.reasoning ++ ". Confidence: "
        ++ toString adjusted_confidence
    else
      "Story sharing not recommended: confidence " ++ toString adjusted_confidence
        ++ " below threshold " ++ toString threshold
  { should_share := should_share
    confidence := adjusted_confidence
    reasoning := reasoning }

/-- Descending order on matches by `combined_score`: `a` goes before `b` when
`b.combined_score ≤ a.combined_score`. -/
def by_score_desc (a b : StoryMatch) : Prop :=
  b.combined_score ≤ a.combined_score

instance : DecidableRel by_score_desc := fun a b =>
  inferInstanceAs (Decidable (b.combined_score ≤ a.combined_score))

instance : IsTotal StoryMatch by_score_desc :=
  ⟨fun a b => le_total b.combined_score a.combined_score⟩

instance : IsTrans StoryMatch by_score_desc :=
  ⟨fun _ _ _ hab hbc => le_trans hbc hab⟩

/-- The per-match transformation of `_apply_selection_criteria` (lines
581-595): `interest_boost += 0.1` for every user interest whose lowercase form
occurs among the lowercased story themes, then
`llm_judge_score = min(1.0, llm_judge_score + interest_boost)`; afterwards
`vector_similarity += 0.1` when `used_count == 0` and `+= 0.05` when
`used_count < 3`. -/
def boost_match (chat_memory : ChatMemory) (m : StoryMatch) : StoryMatch :=
  let interest_boost : ℚ :=
    1/10 * (chat_memory.user_interests.countP
      (fun interest => (m.story.themes.map String.toLower).contains
        interest.toLower) : ℚ)
  let m₁ := { m with llm_judge_score := min 1 (m.llm_judge_score + interest_boost) }
  if m₁.story.used_count = 0 then
    { m₁ with vector_similarity := m₁.vector_similarity + 1/10 }
  else if m₁.story.used_count < 3 then
    { m₁ with vector_similarity := m₁.vector_similarity + 1/20 }
  else m₁

/-- `_apply_selection_criteria` (`src/core/story_matcher.py` lines 575-599):
boost every match, then `matches.sort(key=lambda x: x.combined_score,
reverse=True)` — a stable descending sort, here realized by the stable
`List.insertionSort` — and return the first `max_stories`. -/
def apply_selection_criteria (ms : List StoryMatch)
    (chat_memory : ChatMemory) (max_stories : Nat) : List StoryMatch :=
  (((ms.map (boost_match chat_memory)).insertionSort by_score_desc).take
    max_stories)

/-- The process-lifetime embedding cache `self._embedding_cache`; association
list with the most recent insertion in front. -/
abbrev EmbedCache := List (String × List ℚ)

/-- `_generate_embedding` (`src/core/story_matcher.py` lines 221-243), with
the remote `openai.Embedding.acreate` call abstracted as `embed_api`.
Returns the result (`Except.error` models the re-raised exception), the cache
after the call, and the number of remote calls made (0 on a cache hit). -/
def generate_embedding (embed_api : String → Except String (List ℚ))
    (cache : EmbedCache) (text : String) :
    Except String (List ℚ) × EmbedCache × Nat :=
  match cache.lookup text with
  | some v => (.ok v, cache, 0)
  | none =>
      match embed_api text with
      | .ok embedding => (.ok embedding, (text, embedding) :: cache, 1)
      | .error e => (.error e, cache, 1)

/-- The argument record built by `_vector_similarity_search` for the
`match_stories` RPC: `match_threshold = 1.0 - threshold` converts the
similarity floor into a maximum distance. -/
def mk_search_params (bot_id : String) (query_embedding : List ℚ)
    (excluded_story_ids : List String) (max_candidates : Nat) (threshold : ℚ) :
    SearchParams :=
  { query_embedding := query_embedding
    bot_id := bot_id
    excluded_story_ids := excluded_story_ids
    match_threshold := 1 - threshold
    match_count := max_candidates }

/-- `_vector_similarity_search` (`src/core/story_matcher.py` lines 197-219),
with the Supabase RPC abstracted as `store_api`.  The Python catches every
exception, logs it, and returns `[]`; a falsy `result.data` also yields `[]`
(folded into `.ok []`).  The boolean records whether the error branch logged
a failure, distinguishing a remote failure from a legitimate empty result. -/
def vector_similarity_search (store_api : SearchParams → Except String (List Candidate))
    (bot_id : String) (query_embedding : List ℚ) (excluded_story_ids : List String)
    (max_candidates : Nat) (threshold : ℚ) : List Candidate × Bool :=
  match store_api (mk_search_params bot_id query_embedding excluded_story_ids
      max_candidates threshold) with
  | .ok l => (l, false)
  | .error _ => ([], true)

/-- Python `l[-n:]`. -/
def take_last {α : Type} (n : Nat) (l : List α) : List α :=
  l.drop (l.length - n)

/-- `_build_enhanced_context` (`src/core/story_matcher.py` lines 249-264). -/
def build_enhanced_context (context : String) (chat_memory : ChatMemory) : String :=
  let context_parts := [context]
    ++ (if chat_memory.conversation_themes.isEmpty then [] else
        ["Conversation themes: " ++
          String.intercalate ", " (take_last 5 chat_memory.conversation_themes)])
    ++ (if chat_memory.user_interests.isEmpty then [] else
        ["User interests: " ++ String.intercalate ", " chat_memory.user_interests])
    ++ ["Relationship stage: " ++ chat_memory.relationship_stage]
  String.intercalate ". " context_parts

/-- The remote services consumed by `StoryMatcher`, abstracted as oracles.
`judge_api` and `appro_api` stand for the two `openai.ChatCompletion.acreate`
calls and take the data the prompt is built from (the prompt itself is pure
string formatting); they return the raw response text or a remote error.
`json_loads_rank` / `json_loads_appro` model `json.loads` on the extracted
substring plus the subsequent dict-shaped accesses, returning `none` exactly
when the Python would raise there. -/
structure Services where
  embed_api : String → Except String (List ℚ)
  store_api : SearchParams → Except String (List Candidate)
  judge_api : String → List Candidate → ChatMemory → Except String String
  appro_api : String → Candidate → ChatMemory → Except String String
  json_loads_rank : String → Option JudgmentData
  json_loads_appro : String → Option ApproJudgment

/-- The process-lifetime judge cache `self.judge_cache`.  The Python key is
`f"{hash(context)}_{hash(str(candidate_ids))}"`; it is modelled as the pair
(context, candidate ids) itself, abstracting from `hash` collisions. -/
abbrev JudgeCache := List ((String × List String) × List StoryMatch)

/-- The cache key computed in `_llm_judge_ranking` (lines 425-426). -/
def judge_cache_key (context : String) (candidates : List Candidate) :
    String × List String :=
  (context, candidates.map Candidate.story_id)

/-- `_llm_judge_ranking` (`src/core/story_matcher.py` lines 415-459).
Returns the matches, whether the remote judge was actually invoked (false on
the empty-candidates early return and on a cache hit), and the judge cache
after the call (the parsed result is stored on remote success, also when the
parse itself fell back; a remote error skips the cache write). -/
def llm_judge_ranking (S : Services) (judge_cache : JudgeCache)
    (context : String) (vector_candidates : List Candidate)
    (chat_memory : ChatMemory) : List StoryMatch × Bool × JudgeCache :=
  if vector_candidates.isEmpty then ([], false, judge_cache)
  else
    match judge_cache.lookup (judge_cache_key context vector_candidates) with
    | some cached => (cached, false, judge_cache)
    | none =>
        match S.judge_api context vector_candidates chat_memory with
        | .ok response =>
            let judged := parse_llm_response S.json_loads_rank response
              vector_candidates
            (judged, true,
              (judge_cache_key context vector_candidates, judged) :: judge_cache)
        | .error _ =>
            (create_fallback_matches vector_candidates, true, judge_cache)

/-- `_evaluate_story_sharing_appropriateness` (`src/core/story_matcher.py`
lines 280-376): on remote success the response is brace-extracted and parsed;
any failure (remote or parse) yields the fallback match with the vector
similarity as judge score and reasoning "Fallback to vector similarity". -/
def evaluate_story_sharing_appropriateness (S : Services) (context : String)
    (candidate : Candidate) (chat_memory : ChatMemory) : StoryMatch :=
  let fallback : StoryMatch :=
    { story := candidate_story candidate
      vector_similarity := candidate.similarity
      llm_judge_score := candidate.similarity
      reasoning := "Fallback to vector similarity"
      context_factors := ["vector_similarity"]
      distance := candidate.distance }
  match S.appro_api context candidate chat_memory with
  | .ok response =>
      match S.json_loads_appro (extract_json response) with
      | some judgment =>
          { story := candidate_story candidate
            vector_similarity := candidate.similarity
            llm_judge_score := judgment.appropriateness_score.getD 0
            reasoning := judgment.reasoning.getD "No reasoning provided"
            context_factors := judgment.factors.getD []
            distance := candidate.distance }
      | none => fallback
  | .error _ => fallback

/-- Result and observable effects of one `find_relevant_stories` call.
`search_request` is the exact record sent to the `match_stories` RPC (absent
when the embedding step failed before the search), `judge_called` records
whether the remote judge was invoked, and `search_error_logged` whether the
vector search logged a remote failure. -/
structure FindRun where
  result : List StoryMatch
  search_request : Option SearchParams
  judge_called : Bool
  search_error_logged : Bool
  judge_cache_after : JudgeCache
  embed_cache_after : EmbedCache
deriving Repr

/-- `find_relevant_stories` (`src/core/story_matcher.py` lines 157-195).
The surrounding `try/except` returns `[]` on any exception; within the model
only the embedding step can raise, so the error branch of `generate_embedding`
maps to the `except` branch.  The function is total: it never raises. -/
def find_relevant_stories (S : Services) (judge_cache : JudgeCache)
    (embed_cache : EmbedCache) (bot_id : String) (conversation_context : String)
    (chat_memory : ChatMemory) (max_stories : Nat) : FindRun :=
  match generate_embedding S.embed_api embed_cache
      (build_enhanced_context conversation_context chat_memory) with
  | (.error _, ec, _) =>
      { result := [], search_request := none, judge_called := false,
        search_error_logged := false, judge_cache_after := judge_cache,
        embed_cache_after := ec }
  | (.ok query_embedding, ec, _) =>
      let request := mk_search_params bot_id query_embedding
        chat_memory.stories_shared (max_stories * 2) (7/10)
      let (vector_candidates, logged) := vector_similarity_search S.store_api
        bot_id query_embedding chat_memory.stories_shared (max_stories * 2) (7/10)
      if vector_candidates.isEmpty then
        { result := [], search_request := some request, judge_called := false,
          search_error_logged := logged, judge_cache_after := judge_cache,
          embed_cache_after := ec }
      else
        let (final_matches, called, jc) := llm_judge_ranking S judge_cache
          conversation_context vector_candidates chat_memory
        { result := apply_selection_criteria final_matches chat_memory max_stories
          search_request := some request
          judge_called := called
          search_error_logged := logged
          judge_cache_after := jc
          embed_cache_after := ec }

/-- The dict returned by `should_share_story`. -/
structure ShareResult where
  should_share : Bool
  confidence : ℚ
  story_match : Option StoryMatch
  reasoning : String
deriving DecidableEq, Repr

/-- Result and observable effects of one `should_share_story` call. -/
structure ShareRun where
  result : ShareResult
  search_request : Option SearchParams
  search_error_logged : Bool
  embed_cache_after : EmbedCache
deriving Repr

/-- `should_share_story` (`src/core/story_matcher.py` lines 98-155).
The outer `try/except` returns the no-share error dict; within the model only
the embedding step can raise (the search and the appropriateness judge catch
their own failures).  The function is total: it never raises. -/
def should_share_story (S : Services) (embed_cache : EmbedCache)
    (bot_id : String) (conversation_context : String)
    (chat_memory : ChatMemory) : ShareRun :=
  match generate_embedding S.embed_api embed_cache
      (build_enhanced_context conversation_context chat_memory) with
  | (.error e, ec, _) =>
      { result :=
          { should_share := false, confidence := 0, story_match := none,
            reasoning := "Error in story evaluation: " ++ e }
        search_request := none, search_error_logged := false,
        embed_cache_after := ec }
  | (.ok query_embedding, ec, _) =>
      let request := mk_search_params bot_id query_embedding
        chat_memory.stories_shared 3 (3/5)
      let (found, logged) := vector_similarity_search S.store_api bot_id
        query_embedding chat_memory.stories_shared 3 (3/5)
      match found with
      | [] =>
          { result :=
              { should_share := false, confidence := 0, story_match := none,
                reasoning := "No stories found above similarity threshold" }
            search_request := some request, search_error_logged := logged,
            embed_cache_after := ec }
      | best :: _ =>
          let best_match := evaluate_story_sharing_appropriateness S
            conversation_context best chat_memory
          let decision := make_sharing_decision best_match chat_memory
          { result :=
              { should_share := decision.should_share
                confidence := decision.confidence
                story_match := if decision.should_share then some best_match else none
                reasoning := decision.reasoning }
            search_request := some request, search_error_logged := logged,
            embed_cache_after := ec }

/-- Substring test on character lists (Python's `needle in haystack`). -/
def infix_chars (needle : List Char) : List Char → Bool
  | [] => needle.isEmpty
  | h :: t => needle.isPrefixOf (h :: t) || infix_chars needle t

/-- Python `keyword in combined_text` on strings. -/
def str_contains (haystack needle : String) : Bool :=
  infix_chars needle.data haystack.data

/-- The `theme_keywords` list of `DigitalTwinBot.update_chat_memory`
(`src/core/bot.py` line 119). -/
def theme_keywords : List String :=
  ["family", "work", "travel", "learning", "food", "technology", "music",
   "sports"]

/-- `DigitalTwinBot.update_chat_memory` (`src/core/bot.py` lines 109-130),
without the storage write-back: increment `message_count`, refresh
`last_interaction` (the `datetime.now()` timestamp is passed in as `now`),
append newly seen theme keywords, then resolve the relationship stage from
the updated count. -/
def update_chat_memory (memory : ChatMemory) (user_message bot_response : String)
    (now : String) : ChatMemory :=
  let memory := { memory with
    message_count := memory.message_count + 1
    last_interaction := now }
  let combined_text := (user_message ++ " " ++ bot_response).toLower
  let themes := theme_keywords.foldl
    (fun acc keyword =>
      if str_contains combined_text keyword ∧ keyword ∉ acc then
        acc ++ [keyword]
      else acc)
    memory.conversation_themes
  let memory := { memory with conversation_themes := themes }
  if memory.message_count > 20 then { memory with relationship_stage := "familiar" }
  else if memory.message_count > 5 then
    { memory with relationship_stage := "warming_up" }
  else memory

/-- The default `ChatMemory` created by `StorageManager.load_chat_memory`
(`src/storage/storage_manager.py` lines 83-90) when no record exists:
dataclass defaults give `message_count = 0` and `relationship_stage = "new"`. -/
def default_chat_memory (bot_id chat_id now : String) : ChatMemory :=
  { chat_id := chat_id
    bot_id := bot_id
    stories_shared := []
    conversation_themes := []
    user_interests := []
    last_interaction := now
    message_count := 0
    relationship_stage := "new" }

/-- Rank of a relationship stage along `new → warming_up → familiar`. -/
def stage_rank (stage : String) : Nat :=
  if stage = "familiar" then 2 else if stage = "warming_up" then 1 else 0

/-- Reachability invariant tying a memory's stage to its message count: the
stage is one of the three values, `warming_up` implies the count already
exceeded 5, and `familiar` implies it exceeded 20.  It holds for the default
memory and is preserved by `update_chat_memory`. -/
def stage_consistent (memory : ChatMemory) : Prop :=
  (memory.relationship_stage = "new" ∨ memory.relationship_stage = "warming_up"
    ∨ memory.relationship_stage = "familiar")
  ∧ (memory.relationship_stage = "warming_up" → memory.message_count > 5)
  ∧ (memory.relationship_stage = "familiar" → memory.message_count > 20)

/-- The claim C5's own wording of the interest boost, for comparison with the
code: 0.1 per story theme whose lowercase form equals the lowercase form of
some user interest, then clamped to at most 1. -/
def claimed_theme_boosted_score (chat_memory : ChatMemory) (m : StoryMatch) : ℚ :=
  min 1 (m.llm_judge_score +
    1/10 * (m.story.themes.countP
      (fun theme => (chat_memory.user_interests.map String.toLower).contains
        theme.toLower) : ℚ))

/-- A concrete story match candidate used to instantiate theorems. -/
def wit_candidate : Candidate :=
  { story_id := "s1", bot_id := "b", title := "T", content := "C",
    themes := ["work", "stress"], triggers := [], emotional_tone := "funny",
    context_hints := [], used_count := 0, similarity := 17/20, distance := 3/20 }

/-- A concrete fresh chat memory used to instantiate theorems. -/
def wit_memory : ChatMemory :=
  { chat_id := "c1", bot_id := "b", stories_shared := [],
    conversation_themes := [], user_interests := [], last_interaction := "t0",
    message_count := 0, relationship_stage := "new" }

/-- Concrete services: embedding and store succeed (the store returning the
given candidate list), both judge calls fail remotely, and `json.loads`
rejects its input. -/
def wit_services (cands : List Candidate) : Services :=
  { embed_api := fun _ => .ok [1, 0]
    store_api := fun _ => .ok cands
    judge_api := fun _ _ _ => .error "judge down"
    appro_api := fun _ _ _ => .error "judge down"
    json_loads_rank := fun _ => none
    json_loads_appro := fun _ => none }

/-- C1: the `combined_score` of a `StoryMatch` equals
`0.5*vector_similarity + 0.4*llm_judge_score + 0.1*(1 - min(distance, 1.0))`,
and whenever `vector_similarity` and `llm_judge_score` lie in `[0,1]` and
`distance ≥ 0`, the combined score lies in `[0,1]`. -/
theorem combined_score_formula_and_bounds (m : StoryMatch)
    (hv0 : 0 ≤ m.vector_similarity) (hv1 : m.vector_similarity ≤ 1)
    (hl0 : 0 ≤ m.llm_judge_score) (hl1 : m.llm_judge_score ≤ 1)
    (hd : 0 ≤ m.distance) :
    m.combined_score =
      0.5 * m.vector_similarity + 0.4 * m.llm_judge_score
        + 0.1 * (1 - min m.distance 1) ∧
    0 ≤ m.combined_score ∧ m.combined_score ≤ 1 := by
  have hmin1 : min m.distance 1 ≤ 1 := min_le_right _ _
  have hmin0 : 0 ≤ min m.distance 1 := le_min hd zero_le_one
  refine ⟨?_, ?_, ?_⟩
  · unfold StoryMatch.combined_score
    norm_num
  · unfold StoryMatch.combined_score
    nlinarith
  · unfold StoryMatch.combined_score
    nlinarith

/-- Concrete instance of `combined_score_formula_and_bounds`:
a match with similarity 0.8, judge score 0.9 and distance 0.2. -/
theorem combined_score_formula_and_bounds_witness :
    let m : StoryMatch :=
      { story :=
          { id := "s1", bot_id := "b1", title := "t", content := "c",
            themes := [], triggers := [], emotional_tone := "funny",
            context_hints := [], used_count := 0, last_used := none }
        vector_similarity := 0.8
        llm_judge_score := 0.9
        reasoning := "r"
        context_factors := []
        distance := 0.2 }
    m.combined_score =
      0.5 * m.vector_similarity + 0.4 * m.llm_judge_score
        + 0.1 * (1 - min m.distance 1) ∧
    0 ≤ m.combined_score ∧ m.combined_score ≤ 1 := by
  exact combined_score_formula_and_bounds _
    (by norm_num) (by norm_num) (by norm_num) (by norm_num) (by norm_num)

/-- C2: in every `should_share_story` call that reaches a best candidate, the
returned confidence equals the best match's `combined_score` times the stage
multiplier (0.7 for "new", 1.0 for "warming_up", 1.2 for "familiar"), further
times 0.8 exactly when at least 3 stories were already shared; `should_share`
is true iff that adjusted confidence is ≥ 0.6; and `story_match` is the best
match when sharing and `none` otherwise. -/
theorem should_share_story_decision (S : Services) (ec : EmbedCache)
    (bot_id context : String) (mem : ChatMemory) (emb : List ℚ)
    (ec' : EmbedCache) (k : Nat)
    (hemb : generate_embedding S.embed_api ec (build_enhanced_context context mem)
      = (.ok emb, ec', k))
    (best : Candidate) (rest : List Candidate)
    (hstore : S.store_api (mk_search_params bot_id emb mem.stories_shared 3 (3/5))
      = .ok (best :: rest)) :
    (should_share_story S ec bot_id context mem).result.confidence
        = (evaluate_story_sharing_appropriateness S context best mem).combined_score
          * stage_multiplier mem.relationship_stage
          * (if mem.stories_shared.length ≥ 3 then 0.8 else 1) ∧
    ((should_share_story S ec bot_id context mem).result.should_share = true ↔
        (should_share_story S ec bot_id context mem).result.confidence ≥ 0.6) ∧
    (should_share_story S ec bot_id context mem).result.story_match
        = (if (should_share_story S ec bot_id context mem).result.should_share
           then some (evaluate_story_sharing_appropriateness S context best mem)
           else none) ∧
    stage_multiplier "new" = 0.7 ∧ stage_multiplier "warming_up" = 1 ∧
    stage_multiplier "familiar" = 1.2 := by
  have hrun : should_share_story S ec bot_id context mem =
      { result :=
          { should_share := (make_sharing_decision
              (evaluate_story_sharing_appropriateness S context best mem) mem).should_share
            confidence := (make_sharing_decision
              (evaluate_story_sharing_appropriateness S context best mem) mem).confidence
            story_match := if (make_sharing_decision
                (evaluate_story_sharing_appropriateness S context best mem) mem).should_share
              then some (evaluate_story_sharing_appropriateness S context best mem)
              else none
            reasoning := (make_sharing_decision
              (evaluate_story_sharing_appropriateness S context best mem) mem).reasoning }
        search_request := some (mk_search_params bot_id emb mem.stories_shared 3 (3/5))
        search_error_logged := false
        embed_cache_after := ec' } := by
    unfold should_share_story
    rw [hemb]
    simp only [vector_similarity_search, hstore]
  rw [hrun]
  refine ⟨?_, ?_, rfl, ?_, ?_, ?_⟩
  · simp only [make_sharing_decision]
    split_ifs <;> norm_num
  · simp only [make_sharing_decision, ge_iff_le, decide_eq_true_eq]
    norm_num
  · simp only [stage_multiplier, if_pos rfl]
    norm_num
  · simp [stage_multiplier]
  · simp [stage_multiplier]
    norm_num

/-- Instance of `should_share_story_decision` at a concrete candidate, a fresh
"new"-stage memory, and services whose judge fails. -/
theorem should_share_story_decision_witness :
    (should_share_story (wit_services [wit_candidate]) [] "b" "ctx" wit_memory).result.confidence
        = (evaluate_story_sharing_appropriateness (wit_services [wit_candidate])
            "ctx" wit_candidate wit_memory).combined_score
          * stage_multiplier wit_memory.relationship_stage
          * (if wit_memory.stories_shared.length ≥ 3 then 0.8 else 1) ∧
    ((should_share_story (wit_services [wit_candidate]) [] "b" "ctx" wit_memory).result.should_share = true ↔
        (should_share_story (wit_services [wit_candidate]) [] "b" "ctx" wit_memory).result.confidence ≥ 0.6) ∧
    (should_share_story (wit_services [wit_candidate]) [] "b" "ctx" wit_memory).result.story_match
        = (if (should_share_story (wit_services [wit_candidate]) [] "b" "ctx" wit_memory).result.should_share
           then some (evaluate_story_sharing_appropriateness (wit_services [wit_candidate])
             "ctx" wit_candidate wit_memory)
           else none) ∧
    stage_multiplier "new" = 0.7 ∧ stage_multiplier "warming_up" = 1 ∧
    stage_multiplier "familiar" = 1.2 :=
  should_share_story_decision (wit_services [wit_candidate]) [] "b" "ctx"
    wit_memory [1, 0] _ 1 rfl wit_candidate [] rfl

/-- Reduction of `find_relevant_stories` when the embedding step fails. -/
theorem find_embed_error (S : Services) (jc : JudgeCache) (ec : EmbedCache)
    (bot_id context : String) (mem : ChatMemory) (max_stories : Nat)
    (e : String) (ec' : EmbedCache) (k : Nat)
    (hemb : generate_embedding S.embed_api ec (build_enhanced_context context mem)
      = (.error e, ec', k)) :
    find_relevant_stories S jc ec bot_id context mem max_stories =
      { result := [], search_request := none, judge_called := false,
        search_error_logged := false, judge_cache_after := jc,
        embed_cache_after := ec' } := by
  unfold find_relevant_stories
  rw [hemb]

/-- Reduction of `find_relevant_stories` when the embedding succeeds and the
vector search raises a remote error. -/
theorem find_store_error (S : Services) (jc : JudgeCache) (ec : EmbedCache)
    (bot_id context : String) (mem : ChatMemory) (max_stories : Nat)
    (emb : List ℚ) (ec' : EmbedCache) (k : Nat)
    (hemb : generate_embedding S.embed_api ec (build_enhanced_context context mem)
      = (.ok emb, ec', k))
    (e : String)
    (hstore : S.store_api (mk_search_params bot_id emb mem.stories_shared
      (max_stories * 2) (7/10)) = .error e) :
    find_relevant_stories S jc ec bot_id context mem max_stories =
      { result := [],
        search_request := some (mk_search_params bot_id emb mem.stories_shared
          (max_stories * 2) (7/10)),
        judge_called := false, search_error_logged := true,
        judge_cache_after := jc, embed_cache_after := ec' } := by
  unfold find_relevant_stories
  rw [hemb]
  simp only [vector_similarity_search, hstore]
  rfl

/-- Reduction of `find_relevant_stories` when the embedding succeeds and the
vector search returns an empty candidate list. -/
theorem find_store_empty (S : Services) (jc : JudgeCache) (ec : EmbedCache)
    (bot_id context : String) (mem : ChatMemory) (max_stories : Nat)
    (emb : List ℚ) (ec' : EmbedCache) (k : Nat)
    (hemb : generate_embedding S.embed_api ec (build_enhanced_context context mem)
      = (.ok emb, ec', k))
    (hstore : S.store_api (mk_search_params bot_id emb mem.stories_shared
      (max_stories * 2) (7/10)) = .ok []) :
    find_relevant_stories S jc ec bot_id context mem max_stories =
      { result := [],
        search_request := some (mk_search_params bot_id emb mem.stories_shared
          (max_stories * 2) (7/10)),
        judge_called := false, search_error_logged := false,
        judge_cache_after := jc, embed_cache_after := ec' } := by
  unfold find_relevant_stories
  rw [hemb]
  simp only [vector_similarity_search, hstore]
  rfl

/-- Reduction of `find_relevant_stories` when the embedding succeeds and the
vector search returns a nonempty candidate list. -/
theorem find_store_cons (S : Services) (jc : JudgeCache) (ec : EmbedCache)
    (bot_id context : String) (mem : ChatMemory) (max_stories : Nat)
    (emb : List ℚ) (ec' : EmbedCache) (k : Nat)
    (hemb : generate_embedding S.embed_api ec (build_enhanced_context context mem)
      = (.ok emb, ec', k))
    (c : Candidate) (cs : List Candidate)
    (hstore : S.store_api (mk_search_params bot_id emb mem.stories_shared
      (max_stories * 2) (7/10)) = .ok (c :: cs)) :
    find_relevant_stories S jc ec bot_id context mem max_stories =
      { result := apply_selection_criteria
          (llm_judge_ranking S jc context (c :: cs) mem).1 mem max_stories
        search_request := some (mk_search_params bot_id emb mem.stories_shared
          (max_stories * 2) (7/10))
        judge_called := (llm_judge_ranking S jc context (c :: cs) mem).2.1
        search_error_logged := false
        judge_cache_after := (llm_judge_ranking S jc context (c :: cs) mem).2.2
        embed_cache_after := ec' } := by
  unfold find_relevant_stories
  rw [hemb]
  simp only [vector_similarity_search, hstore]
  rfl

/-- Reduction of `should_share_story` when the embedding step fails. -/
theorem share_embed_error (S : Services) (ec : EmbedCache)
    (bot_id context : String) (mem : ChatMemory)
    (e : String) (ec' : EmbedCache) (k : Nat)
    (hemb : generate_embedding S.embed_api ec (build_enhanced_context context mem)
      = (.error e, ec', k)) :
    should_share_story S ec bot_id context mem =
      { result :=
          { should_share := false, confidence := 0, story_match := none,
            reasoning := "Error in story evaluation: " ++ e }
        search_request := none, search_error_logged := false,
        embed_cache_after := ec' } := by
  unfold should_share_story
  rw [hemb]

/-- Reduction of `should_share_story` when the embedding succeeds and the
vector search raises a remote error. -/
theorem share_store_error (S : Services) (ec : EmbedCache)
    (bot_id context : String) (mem : ChatMemory)
    (emb : List ℚ) (ec' : EmbedCache) (k : Nat)
    (hemb : generate_embedding S.embed_api ec (build_enhanced_context context mem)
      = (.ok emb, ec', k))
    (e : String)
    (hstore : S.store_api (mk_search_params bot_id emb mem.stories_shared 3 (3/5))
      = .error e) :
    should_share_story S ec bot_id context mem =
      { result :=
          { should_share := false, confidence := 0, story_match := none,
            reasoning := "No stories found above similarity threshold" }
        search_request := some (mk_search_params bot_id emb mem.stories_shared 3 (3/5))
        search_error_logged := true, embed_cache_after := ec' } := by
  unfold should_share_story
  rw [hemb]
  simp only [vector_similarity_search, hstore]

/-- Reduction of `should_share_story` when the embedding succeeds and the
vector search returns an empty list. -/
theorem share_store_empty (S : Services) (ec : EmbedCache)
    (bot_id context : String) (mem : ChatMemory)
    (emb : List ℚ) (ec' : EmbedCache) (k : Nat)
    (hemb : generate_embedding S.embed_api ec (build_enhanced_context context mem)
      = (.ok emb, ec', k))
    (hstore : S.store_api (mk_search_params bot_id emb mem.stories_shared 3 (3/5))
      = .ok []) :
    should_share_story S ec bot_id context mem =
      { result :=
          { should_share := false, confidence := 0, story_match := none,
            reasoning := "No stories found above similarity threshold" }
        search_request := some (mk_search_params bot_id emb mem.stories_shared 3 (3/5))
        search_error_logged := false, embed_cache_after := ec' } := by
  unfold should_share_story
  rw [hemb]
  simp only [vector_similarity_search, hstore]

/-- Reduction of `should_share_story` when the embedding succeeds and the
vector search returns a nonempty list. -/
theorem share_store_cons (S : Services) (ec : EmbedCache)
    (bot_id context : String) (mem : ChatMemory)
    (emb : List ℚ) (ec' : EmbedCache) (k : Nat)
    (hemb : generate_embedding S.embed_api ec (build_enhanced_context context mem)
      = (.ok emb, ec', k))
    (best : Candidate) (rest : List Candidate)
    (hstore : S.store_api (mk_search_params bot_id emb mem.stories_shared 3 (3/5))
      = .ok (best :: rest)) :
    should_share_story S ec bot_id context mem =
      { result :=
          { should_share := (make_sharing_decision
              (evaluate_story_sharing_appropriateness S context best mem) mem).should_share
            confidence := (make_sharing_decision
              (evaluate_story_sharing_appropriateness S context best mem) mem).confidence
            story_match := if (make_sharing_decision
                (evaluate_story_sharing_appropriateness S context best mem) mem).should_share
              then some (evaluate_story_sharing_appropriateness S context best mem)
              else none
            reasoning := (make_sharing_decision
              (evaluate_story_sharing_appropriateness S context best mem) mem).reasoning }
        search_request := some (mk_search_params bot_id emb mem.stories_shared 3 (3/5))
        search_error_logged := false
        embed_cache_after := ec' } := by
  unfold should_share_story
  rw [hemb]
  simp only [vector_similarity_search, hstore]

/-- C4: whenever the query embedding is produced, `find_relevant_stories`
sends the vector store a request for `max_stories * 2` candidates with
distance threshold `1 - 0.7`, and `should_share_story` a request for 3
candidates with distance threshold `1 - 0.6`; both requests exclude exactly
`memory.stories_shared`; and when the search returns no candidates,
`find_relevant_stories` returns `[]` without invoking the judge. -/
theorem search_request_shape (S : Services) (jc : JudgeCache) (ec : EmbedCache)
    (bot_id context : String) (mem : ChatMemory) (max_stories : Nat)
    (emb : List ℚ) (ec' : EmbedCache) (k : Nat)
    (hemb : generate_embedding S.embed_api ec (build_enhanced_context context mem)
      = (.ok emb, ec', k)) :
    (find_relevant_stories S jc ec bot_id context mem max_stories).search_request
        = some { query_embedding := emb, bot_id := bot_id,
                 excluded_story_ids := mem.stories_shared,
                 match_threshold := 1 - 0.7, match_count := max_stories * 2 } ∧
    (should_share_story S ec bot_id context mem).search_request
        = some { query_embedding := emb, bot_id := bot_id,
                 excluded_story_ids := mem.stories_shared,
                 match_threshold := 1 - 0.6, match_count := 3 } ∧
    (S.store_api (mk_search_params bot_id emb mem.stories_shared
        (max_stories * 2) (7/10)) = .ok [] →
      (find_relevant_stories S jc ec bot_id context mem max_stories).result = []
        ∧ (find_relevant_stories S jc ec bot_id context mem max_stories).judge_called
            = false) := by
  have hmk7 : mk_search_params bot_id emb mem.stories_shared (max_stories * 2) (7/10)
      = { query_embedding := emb, bot_id := bot_id,
          excluded_story_ids := mem.stories_shared,
          match_threshold := 1 - 0.7, match_count := max_stories * 2 } := by
    simp only [mk_search_params, SearchParams.mk.injEq, and_true, true_and]
    norm_num
  have hmk6 : mk_search_params bot_id emb mem.stories_shared 3 (3/5)
      = { query_embedding := emb, bot_id := bot_id,
          excluded_story_ids := mem.stories_shared,
          match_threshold := 1 - 0.6, match_count := 3 } := by
    simp only [mk_search_params, SearchParams.mk.injEq, and_true, true_and]
    norm_num
  refine ⟨?_, ?_, ?_⟩
  · cases hs : S.store_api (mk_search_params bot_id emb mem.stories_shared
        (max_stories * 2) (7/10)) with
    | error e => rw [find_store_error S jc ec bot_id context mem max_stories
        emb ec' k hemb e hs, hmk7]
    | ok l =>
        cases l with
        | nil => rw [find_store_empty S jc ec bot_id context mem max_stories
            emb ec' k hemb hs, hmk7]
        | cons c cs => rw [find_store_cons S jc ec bot_id context mem max_stories
            emb ec' k hemb c cs hs, hmk7]
  · cases hs : S.store_api (mk_search_params bot_id emb mem.stories_shared 3 (3/5)) with
    | error e => rw [share_store_error S ec bot_id context mem emb ec' k hemb e hs, hmk6]
    | ok l =>
        cases l with
        | nil => rw [share_store_empty S ec bot_id context mem emb ec' k hemb hs, hmk6]
        | cons best rest =>
            rw [share_store_cons S ec bot_id context mem emb ec' k hemb best rest hs, hmk6]
  · intro hs
    rw [find_store_empty S jc ec bot_id context mem max_stories emb ec' k hemb hs]
    exact ⟨rfl, rfl⟩

/-- Instance of `search_request_shape` at a concrete memory and services. -/
theorem search_request_shape_witness :
    (find_relevant_stories (wit_services [wit_candidate]) [] [] "b" "ctx"
        wit_memory 3).search_request
      = some { query_embedding := [1, 0], bot_id := "b",
               excluded_story_ids := wit_memory.stories_shared,
               match_threshold := 1 - 0.7, match_count := 3 * 2 } ∧
    (should_share_story (wit_services [wit_candidate]) [] "b" "ctx"
        wit_memory).search_request
      = some { query_embedding := [1, 0], bot_id := "b",
               excluded_story_ids := wit_memory.stories_shared,
               match_threshold := 1 - 0.6, match_count := 3 } ∧
    ((wit_services [wit_candidate]).store_api (mk_search_params "b" [1, 0]
        wit_memory.stories_shared (3 * 2) (7/10)) = .ok [] →
      (find_relevant_stories (wit_services [wit_candidate]) [] [] "b" "ctx"
          wit_memory 3).result = []
        ∧ (find_relevant_stories (wit_services [wit_candidate]) [] [] "b" "ctx"
            wit_memory 3).judge_called = false) :=
  search_request_shape (wit_services [wit_candidate]) [] [] "b" "ctx"
    wit_memory 3 [1, 0] _ 1 rfl

/-- `boost_match` only rescales scores; the reasoning string is untouched. -/
theorem boost_match_reasoning (mem : ChatMemory) (m : StoryMatch) :
    (boost_match mem m).reasoning = m.reasoning := by
  simp only [boost_match]
  split_ifs <;> rfl

/-- Every element of the selection output is the boost of some input match. -/
theorem mem_apply_selection_criteria {m : StoryMatch} {ms : List StoryMatch}
    {mem : ChatMemory} {k : Nat}
    (h : m ∈ apply_selection_criteria ms mem k) :
    ∃ m₀ ∈ ms, m = boost_match mem m₀ := by
  unfold apply_selection_criteria at h
  have h₁ : m ∈ (ms.map (boost_match mem)).insertionSort by_score_desc :=
    List.take_subset _ _ h
  have h₂ : m ∈ ms.map (boost_match mem) :=
    (List.perm_insertionSort by_score_desc _).mem_iff.mp h₁
  obtain ⟨m₀, hm₀, hb⟩ := List.mem_map.mp h₂
  exact ⟨m₀, hm₀, hb.symm⟩

/-- The selection output never exceeds `max_stories` entries. -/
theorem apply_selection_criteria_length_le (ms : List StoryMatch)
    (mem : ChatMemory) (k : Nat) :
    (apply_selection_criteria ms mem k).length ≤ k := by
  unfold apply_selection_criteria
  exact List.length_take_le _ _

/-- `create_fallback_matches` pairs each candidate with a match that copies
the candidate's similarity into both score slots and carries the fixed
fallback marker. -/
theorem create_fallback_matches_pointwise (L : List Candidate) :
    List.Forall₂ (fun cand m => m.vector_similarity = cand.similarity
      ∧ m.llm_judge_score = cand.similarity ∧ m.reasoning = fallback_marker)
      L (create_fallback_matches L) := by
  induction L with
  | nil => exact List.Forall₂.nil
  | cons a t ih =>
      simp only [create_fallback_matches, List.map_cons] at ih ⊢
      exact List.Forall₂.cons ⟨rfl, rfl, rfl⟩ ih

/-- Reduction of `llm_judge_ranking` on a cache miss with a failing judge. -/
theorem llm_judge_ranking_error (S : Services) (jc : JudgeCache)
    (context : String) (c : Candidate) (cs : List Candidate) (mem : ChatMemory)
    (hcache : jc.lookup (judge_cache_key context (c :: cs)) = none)
    (e : String) (hjudge : S.judge_api context (c :: cs) mem = .error e) :
    llm_judge_ranking S jc context (c :: cs) mem
      = (create_fallback_matches (c :: cs), true, jc) := by
  unfold llm_judge_ranking
  simp only [List.isEmpty_cons, hcache, hjudge]
  rfl

/-- C3: whenever `find_relevant_stories` reaches candidates and the remote
judge call fails, the call still returns (it never raises), the result is the
selection pass applied to the fallback matches, it has at most `max_stories`
entries, every returned match carries the fixed fallback marker as its
reasoning, and each fallback match is constructed with `llm_judge_score`
equal to that candidate's vector similarity. -/
theorem judge_failure_fallback (S : Services) (jc : JudgeCache) (ec : EmbedCache)
    (bot_id context : String) (mem : ChatMemory) (max_stories : Nat)
    (emb : List ℚ) (ec' : EmbedCache) (k : Nat)
    (hemb : generate_embedding S.embed_api ec (build_enhanced_context context mem)
      = (.ok emb, ec', k))
    (c : Candidate) (cs : List Candidate)
    (hstore : S.store_api (mk_search_params bot_id emb mem.stories_shared
      (max_stories * 2) (7/10)) = .ok (c :: cs))
    (hcache : jc.lookup (judge_cache_key context (c :: cs)) = none)
    (e : String) (hjudge : S.judge_api context (c :: cs) mem = .error e) :
    (find_relevant_stories S jc ec bot_id context mem max_stories).result
        = apply_selection_criteria (create_fallback_matches (c :: cs)) mem max_stories ∧
    (find_relevant_stories S jc ec bot_id context mem max_stories).result.length
        ≤ max_stories ∧
    (∀ m ∈ (find_relevant_stories S jc ec bot_id context mem max_stories).result,
        m.reasoning = fallback_marker) ∧
    List.Forall₂ (fun cand m => m.vector_similarity = cand.similarity
        ∧ m.llm_judge_score = cand.similarity ∧ m.reasoning = fallback_marker)
      (c :: cs) (create_fallback_matches (c :: cs)) := by
  have hrun := find_store_cons S jc ec bot_id context mem max_stories emb ec' k
    hemb c cs hstore
  rw [llm_judge_ranking_error S jc context c cs mem hcache e hjudge] at hrun
  rw [hrun]
  refine ⟨rfl, apply_selection_criteria_length_le _ _ _, ?_,
    create_fallback_matches_pointwise _⟩
  intro m hm
  obtain ⟨m₀, hm₀, hb⟩ := mem_apply_selection_criteria hm
  obtain ⟨cand, _, hcand⟩ := List.mem_map.mp hm₀
  rw [hb, boost_match_reasoning, ← hcand]

/-- Instance of `judge_failure_fallback` at a concrete candidate and services
whose judge fails remotely. -/
theorem judge_failure_fallback_witness :
    (find_relevant_stories (wit_services [wit_candidate]) [] [] "b" "ctx"
        wit_memory 3).result
      = apply_selection_criteria (create_fallback_matches [wit_candidate])
          wit_memory 3 ∧
    (find_relevant_stories (wit_services [wit_candidate]) [] [] "b" "ctx"
        wit_memory 3).result.length ≤ 3 ∧
    (∀ m ∈ (find_relevant_stories (wit_services [wit_candidate]) [] [] "b" "ctx"
        wit_memory 3).result, m.reasoning = fallback_marker) ∧
    List.Forall₂ (fun cand m => m.vector_similarity = cand.similarity
        ∧ m.llm_judge_score = cand.similarity ∧ m.reasoning = fallback_marker)
      [wit_candidate] (create_fallback_matches [wit_candidate]) :=
  judge_failure_fallback (wit_services [wit_candidate]) [] [] "b" "ctx"
    wit_memory 3 [1, 0] _ 1 rfl wit_candidate [] rfl rfl "judge down" rfl

/-- A match whose story has two themes that differ only in case, both
case-folding onto a single user interest. -/
def cex_match : StoryMatch :=
  { story :=
      { id := "s5", bot_id := "b", title := "T", content := "C",
        themes := ["work", "WORK"], triggers := [], emotional_tone := "funny",
        context_hints := [], used_count := 5, last_used := none }
    vector_similarity := 1/2
    llm_judge_score := 1/2
    reasoning := "r"
    context_factors := []
    distance := 1/2 }

/-- A memory with the single user interest "work". -/
def cex_memory : ChatMemory :=
  { chat_id := "c5", bot_id := "b", stories_shared := [],
    conversation_themes := [], user_interests := ["work"],
    last_interaction := "t0", message_count := 0, relationship_stage := "new" }

/-- C5 counterexample: the code counts 0.1 per matching *interest*, not per
matching *theme*.  With themes `["work", "WORK"]` and the single interest
`"work"`, the claim's per-theme accounting predicts a boosted judge score of
`min 1 (0.5 + 0.2) = 0.7`, but the selection pass of the code produces
`min 1 (0.5 + 0.1) = 0.6`: two themes match the interest, yet only one
interest matches a theme. -/
theorem selection_boost_counterexample :
    apply_selection_criteria [cex_match] cex_memory 1
        = [{ cex_match with llm_judge_score := 3/5 }] ∧
    claimed_theme_boosted_score cex_memory cex_match = 7/10 ∧
    (3 : ℚ)/5 ≠ 7/10 := by
  with_unfolding_all decide

/-- C5 (amended): in the selection pass each match's `llm_judge_score` is
increased by 0.1 per *user interest* whose lowercase form equals the
lowercase form of some story theme (counted once per interest occurrence),
then clamped to at most 1; `vector_similarity` is increased by 0.1 when
`used_count = 0`, by 0.05 when `used_count` is 1 or 2, and is unchanged
otherwise; the output is the first `max_stories` entries of the boosted
matches stably sorted in descending order of `combined_score` (a permutation
of the boosted matches). -/
theorem selection_criteria_spec (ms : List StoryMatch) (mem : ChatMemory)
    (k : Nat) :
    (∀ m : StoryMatch,
      (boost_match mem m).llm_judge_score
          = min 1 (m.llm_judge_score
              + 0.1 * (mem.user_interests.countP
                  (fun interest => (m.story.themes.map String.toLower).contains
                    interest.toLower) : ℚ)) ∧
      (boost_match mem m).vector_similarity
          = m.vector_similarity
              + (if m.story.used_count = 0 then (0.1 : ℚ)
                 else if m.story.used_count < 3 then 0.05 else 0)) ∧
    apply_selection_criteria ms mem k
        = ((ms.map (boost_match mem)).insertionSort by_score_desc).take k ∧
    List.Sorted by_score_desc
        ((ms.map (boost_match mem)).insertionSort by_score_desc) ∧
    ((ms.map (boost_match mem)).insertionSort by_score_desc).Perm
        (ms.map (boost_match mem)) ∧
    (∀ a b : StoryMatch, by_score_desc a b ↔ b.combined_score ≤ a.combined_score) := by
  refine ⟨?_, rfl, List.sorted_insertionSort by_score_desc _,
    List.perm_insertionSort by_score_desc _, fun a b => Iff.rfl⟩
  intro m
  constructor
  · simp only [boost_match]
    split_ifs <;> · show (1 : ℚ) ⊓ _ = _ ⊓ _ ; norm_num
  · simp only [boost_match]
    split_ifs <;> norm_num

/-- A never-used candidate reported by the store with perfect similarity. -/
def c10_candidate : Candidate :=
  { story_id := "s10", bot_id := "b", title := "T", content := "C",
    themes := [], triggers := [], emotional_tone := "funny",
    context_hints := [], used_count := 0, similarity := 1, distance := 0 }

/-- C10: the novelty boost on `vector_similarity` is not clamped.  Running
`find_relevant_stories` on a store-reported candidate with similarity 1 (in
[0,1]) and `used_count = 0` returns a match with `vector_similarity = 1.1`
and `combined_score = 21/20 > 1`. -/
theorem novelty_boost_unbounded :
    ((find_relevant_stories (wit_services [c10_candidate]) [] [] "b" "ctx"
        wit_memory 3).result.map
      (fun m => (m.vector_similarity, m.combined_score))) = [(11/10, 21/20)] ∧
    (21 : ℚ)/20 > 1 ∧ (11 : ℚ)/10 = 1.1 ∧
    c10_candidate.similarity = 1 ∧ c10_candidate.used_count = 0 ∧
    0 ≤ c10_candidate.similarity := by
  refine ⟨by with_unfolding_all decide, by norm_num, by norm_num,
    rfl, rfl, by with_unfolding_all decide⟩

/-- `first_idx` misses characters that are not in the list. -/
theorem first_idx_of_not_mem {c : Char} : ∀ {l : List Char}, c ∉ l →
    first_idx l c = none
  | [], _ => rfl
  | a :: t, h => by
      have ha : ¬(a = c) := fun he => h (he ▸ List.mem_cons_self a t)
      have ht : c ∉ t := fun hm => h (List.mem_cons_of_mem a hm)
      simp [first_idx, ha, first_idx_of_not_mem ht]

/-- `first_idx` finds the first occurrence after a clean prefix. -/
theorem first_idx_append {c : Char} : ∀ {pre : List Char} (mid : List Char),
    c ∉ pre → first_idx (pre ++ c :: mid) c = some pre.length
  | [], mid, _ => by simp [first_idx]
  | a :: t, mid, h => by
      have ha : ¬(a = c) := fun he => h (he ▸ List.mem_cons_self a t)
      have ht : c ∉ t := fun hm => h (List.mem_cons_of_mem a hm)
      simp [first_idx, ha, first_idx_append mid ht]

/-- `py_find` on a string whose first occurrence of `c` follows `pre`. -/
theorem py_find_spec {pre : List Char} (mid : List Char) {c : Char}
    (h : c ∉ pre) : py_find (pre ++ c :: mid) c = pre.length := by
  simp [py_find, first_idx_append mid h]

/-- `py_rfind` on a string whose last occurrence of `c` precedes `post`. -/
theorem py_rfind_spec (pre : List Char) {post : List Char} {c : Char}
    (h : c ∉ post) : py_rfind (pre ++ c :: post) c = pre.length := by
  unfold py_rfind
  have hrev : (pre ++ c :: post).reverse = post.reverse ++ c :: pre.reverse := by
    simp
  rw [hrev, first_idx_append pre.reverse (by simpa using h)]
  simp
  omega

/-- `py_slice` with in-range nonnegative endpoints is `take`-then-`drop`. -/
theorem py_slice_spec (l : List Char) (a b : Nat) (ha : a ≤ l.length)
    (hb : b ≤ l.length) : py_slice l (a : Int) (b : Int) = (l.take b).drop a := by
  simp only [py_slice]
  rw [if_neg (by omega), if_neg (by omega)]
  have h₁ : ((a : Int) ⊓ (l.length : Int)).toNat = a := by omega
  have h₂ : ((b : Int) ⊓ (l.length : Int)).toNat = b := by omega
  rw [h₁, h₂]

/-- Dropping an out-of-range evaluation leaves `process_evaluations`
unchanged, wherever it sits in the batch. -/
theorem process_evaluations_drop (cands : List Candidate) (ev : Evaluation)
    (h : ¬(0 ≤ ev.story_index.getD 1 - 1
      ∧ (ev.story_index.getD 1 - 1).toNat < cands.length)) :
    ∀ (pre post : List Evaluation),
      process_evaluations cands (pre ++ ev :: post)
        = process_evaluations cands (pre ++ post)
  | [], post => by
      simp only [List.nil_append, process_evaluations]
      rw [dif_neg h]
  | e :: t, post => by
      simp only [List.cons_append, process_evaluations]
      by_cases he : 0 ≤ e.story_index.getD 1 - 1
        ∧ (e.story_index.getD 1 - 1).toNat < cands.length
      · rw [dif_pos he, dif_pos he]
        exact congrArg _ (process_evaluations_drop cands ev h t post)
      · rw [dif_neg he, dif_neg he]
        exact process_evaluations_drop cands ev h t post

/-- An evaluation entry whose 1-based story index (9) is out of range for a
single-candidate batch. -/
def bad_eval : Evaluation :=
  { story_index := some 9, score := some 1, reasoning := none, factors := none }

/-- C6 counterexample: on a whole-response parse failure nothing is dropped
and no judged score survives — the code returns one fallback match per
candidate, scored by vector similarity with the fixed fallback marker.  Here
the response `"no json here"` contains no braces, so the extracted substring
is `""`, on which Python's `json.loads` always raises (modelled by the
always-`none` parse oracle, forced at this input). -/
theorem parse_failure_counterexample :
    extract_json "no json here" = "" ∧
    (parse_llm_response (fun _ => none) "no json here" [wit_candidate]).length
        = 1 ∧
    (parse_llm_response (fun _ => none) "no json here"
        [wit_candidate]).map StoryMatch.reasoning = [fallback_marker] ∧
    (parse_llm_response (fun _ => none) "no json here"
        [wit_candidate]).map StoryMatch.llm_judge_score
      = [wit_candidate.similarity] := by
  with_unfolding_all decide

/-- C6 (amended): the substring from the first brace to the last brace of the
response is what gets parsed as JSON; an evaluation whose story index is out
of range is dropped while the rest of the batch keeps its judged scores; a
parse failure of the whole response yields one vector-only fallback match per
candidate (nothing is dropped); and the ranking never crashes (all branches
return). -/
theorem parse_llm_response_contract :
    (∀ (pre mid post : List Char), lbrace ∉ pre → rbrace ∉ post →
      extract_json ⟨pre ++ lbrace :: mid ++ rbrace :: post⟩
        = ⟨lbrace :: (mid ++ [rbrace])⟩) ∧
    (∀ (cands : List Candidate) (ev : Evaluation)
        (pre post : List Evaluation),
      ¬(0 ≤ ev.story_index.getD 1 - 1
          ∧ (ev.story_index.getD 1 - 1).toNat < cands.length) →
      process_evaluations cands (pre ++ ev :: post)
        = process_evaluations cands (pre ++ post)) ∧
    (∀ (cands : List Candidate) (ev : Evaluation) (rest : List Evaluation)
        (h₁ : 0 ≤ ev.story_index.getD 1 - 1)
        (h₂ : (ev.story_index.getD 1 - 1).toNat < cands.length),
      process_evaluations cands (ev :: rest)
        = judged_match (cands.get ⟨(ev.story_index.getD 1 - 1).toNat, h₂⟩) ev
            :: process_evaluations cands rest) ∧
    (∀ (c : Candidate) (ev : Evaluation),
      (judged_match c ev).llm_judge_score = ev.score.getD 0
        ∧ (judged_match c ev).reasoning = ev.reasoning.getD "No reasoning provided") ∧
    (∀ (json_loads : String → Option JudgmentData) (resp : String)
        (cands : List Candidate),
      json_loads (extract_json resp) = none →
        parse_llm_response json_loads resp cands = create_fallback_matches cands) ∧
    (∀ (json_loads : String → Option JudgmentData) (resp : String)
        (cands : List Candidate) (data : JudgmentData),
      json_loads (extract_json resp) = some data →
        parse_llm_response json_loads resp cands
          = process_evaluations cands (data.evaluations.getD [])) := by
  refine ⟨?_, ?_, ?_, fun c ev => ⟨rfl, rfl⟩, ?_, ?_⟩
  · intro pre mid post hpre hpost
    unfold extract_json
    show String.mk _ = String.mk _
    have hfind : py_find (pre ++ lbrace :: (mid ++ rbrace :: post)) lbrace
        = pre.length := py_find_spec _ hpre
    have hrfind : py_rfind ((pre ++ lbrace :: mid) ++ rbrace :: post) rbrace
        = (pre ++ lbrace :: mid).length := py_rfind_spec _ hpost
    have hL : pre ++ lbrace :: mid ++ rbrace :: post
        = (pre ++ lbrace :: mid) ++ rbrace :: post := by simp
    congr 1
    rw [show (String.mk (pre ++ lbrace :: mid ++ rbrace :: post)).data
        = pre ++ lbrace :: (mid ++ rbrace :: post) by simp, hfind]
    rw [show pre ++ lbrace :: (mid ++ rbrace :: post)
        = (pre ++ lbrace :: mid) ++ rbrace :: post by simp, hrfind]
    have hlen1 : (pre ++ lbrace :: mid).length = pre.length + 1 + mid.length := by
      simp; omega
    have hcast : ((pre ++ lbrace :: mid).length : Int) + 1
        = ((pre.length + 1 + mid.length + 1 : Nat) : Int) := by
      rw [hlen1]; push_cast; ring
    rw [hcast, py_slice_spec _ _ _ (by simp <;> omega) (by simp <;> omega)]
    have hsplit : (pre ++ lbrace :: mid) ++ rbrace :: post
        = (pre ++ lbrace :: (mid ++ [rbrace])) ++ post := by simp
    rw [hsplit]
    have htake : ((pre ++ lbrace :: (mid ++ [rbrace])) ++ post).take
        (pre.length + 1 + mid.length + 1) = pre ++ lbrace :: (mid ++ [rbrace]) := by
      rw [List.take_left' (by simp <;> omega)]
    rw [htake, List.drop_left]
  · exact fun cands ev pre post h => process_evaluations_drop cands ev h pre post
  · intro cands ev rest h₁ h₂
    simp only [process_evaluations]
    rw [dif_pos ⟨h₁, h₂⟩]
  · intro json_loads resp cands h
    unfold parse_llm_response
    rw [h]
  · intro json_loads resp cands data h
    unfold parse_llm_response
    rw [h]

/-- Instance of `parse_llm_response_contract`: brace extraction on a concrete
string, dropping a concrete out-of-range evaluation, and the parse-failure
fallback at a concrete response. -/
theorem parse_llm_response_contract_witness :
    extract_json ⟨['a', lbrace, 'b', rbrace, 'c']⟩ = ⟨lbrace :: (['b'] ++ [rbrace])⟩ ∧
    process_evaluations [wit_candidate] ([] ++ bad_eval :: [])
      = process_evaluations [wit_candidate] ([] ++ []) ∧
    parse_llm_response (fun _ => none) "no braces" [wit_candidate]
      = create_fallback_matches [wit_candidate] :=
  ⟨parse_llm_response_contract.1 ['a'] ['b'] ['c'] (by decide) (by decide),
   parse_llm_response_contract.2.1 [wit_candidate] bad_eval [] [] (by decide),
   parse_llm_response_contract.2.2.2.2.1 (fun _ => none) "no braces"
     [wit_candidate] rfl⟩

/-- Services whose embedding provider fails remotely. -/
def embed_fail_services : Services :=
  { embed_api := fun _ => .error "embed down"
    store_api := fun _ => .ok []
    judge_api := fun _ _ _ => .error "judge down"
    appro_api := fun _ _ _ => .error "judge down"
    json_loads_rank := fun _ => none
    json_loads_appro := fun _ => none }

/-- Services whose vector store and judges fail remotely while the embedding
succeeds. -/
def store_fail_services : Services :=
  { embed_api := fun _ => .ok [1, 0]
    store_api := fun _ => .error "store down"
    judge_api := fun _ _ _ => .error "judge down"
    appro_api := fun _ _ _ => .error "judge down"
    json_loads_rank := fun _ => none
    json_loads_appro := fun _ => none }

/-- C7 counterexample: with a failing judge but a working store,
`find_relevant_stories` does not return the empty list — the judge failure is
recovered into fallback matches, so the claimed "returns the empty list on
remote failures (embedding, vector store, or judge)" is false for the judge. -/
theorem remote_failure_counterexample :
    (wit_services [wit_candidate]).judge_api "ctx" [wit_candidate] wit_memory
        = .error "judge down" ∧
    (find_relevant_stories (wit_services [wit_candidate]) [] [] "b" "ctx"
        wit_memory 3).result.length = 1 ∧
    (find_relevant_stories (wit_services [wit_candidate]) [] [] "b" "ctx"
        wit_memory 3).result ≠ [] := by
  refine ⟨rfl, by with_unfolding_all decide, by with_unfolding_all decide⟩

/-- C7 (amended): the vector search maps a store error to no candidates while
logging the failure, distinguishing it from a legitimate empty result (not
logged); the public operations never raise — on embedding or vector-store
failures `find_relevant_stories` returns `[]` and `should_share_story`
returns `should_share = false` with confidence 0; a judge failure in the
share path is recovered locally into the vector-similarity fallback match. -/
theorem remote_failure_policy :
    (∀ (store_api : SearchParams → Except String (List Candidate))
        (bot_id : String) (emb : List ℚ) (excl : List String) (k : Nat)
        (t : ℚ) (e : String),
      store_api (mk_search_params bot_id emb excl k t) = .error e →
        vector_similarity_search store_api bot_id emb excl k t = ([], true)) ∧
    (∀ (store_api : SearchParams → Except String (List Candidate))
        (bot_id : String) (emb : List ℚ) (excl : List String) (k : Nat)
        (t : ℚ),
      store_api (mk_search_params bot_id emb excl k t) = .ok [] →
        vector_similarity_search store_api bot_id emb excl k t = ([], false)) ∧
    (∀ (S : Services) (jc : JudgeCache) (ec : EmbedCache)
        (bot_id context : String) (mem : ChatMemory) (max_stories : Nat)
        (e : String) (ec' : EmbedCache) (n : Nat),
      generate_embedding S.embed_api ec (build_enhanced_context context mem)
          = (.error e, ec', n) →
        (find_relevant_stories S jc ec bot_id context mem max_stories).result = []
        ∧ (should_share_story S ec bot_id context mem).result.should_share = false
        ∧ (should_share_story S ec bot_id context mem).result.confidence = 0
        ∧ (should_share_story S ec bot_id context mem).result.story_match = none) ∧
    (∀ (S : Services) (jc : JudgeCache) (ec : EmbedCache)
        (bot_id context : String) (mem : ChatMemory) (max_stories : Nat)
        (emb : List ℚ) (ec' : EmbedCache) (n : Nat) (e e' : String),
      generate_embedding S.embed_api ec (build_enhanced_context context mem)
          = (.ok emb, ec', n) →
      S.store_api (mk_search_params bot_id emb mem.stories_shared
          (max_stories * 2) (7/10)) = .error e →
      S.store_api (mk_search_params bot_id emb mem.stories_shared 3 (3/5))
          = .error e' →
        (find_relevant_stories S jc ec bot_id context mem max_stories).result = []
        ∧ (find_relevant_stories S jc ec bot_id context mem
            max_stories).search_error_logged = true
        ∧ (should_share_story S ec bot_id context mem).result.should_share = false
        ∧ (should_share_story S ec bot_id context mem).result.confidence = 0
        ∧ (should_share_story S ec bot_id context mem).result.story_match = none) ∧
    (∀ (S : Services) (context : String) (best : Candidate) (mem : ChatMemory)
        (e : String),
      S.appro_api context best mem = .error e →
        evaluate_story_sharing_appropriateness S context best mem
          = { story := candidate_story best
              vector_similarity := best.similarity
              llm_judge_score := best.similarity
              reasoning := "Fallback to vector similarity"
              context_factors := ["vector_similarity"]
              distance := best.distance }) := by
  refine ⟨?_, ?_, ?_, ?_, ?_⟩
  · intro store_api bot_id emb excl k t e h
    unfold vector_similarity_search
    rw [h]
  · intro store_api bot_id emb excl k t h
    unfold vector_similarity_search
    rw [h]
  · intro S jc ec bot_id context mem max_stories e ec' n hemb
    rw [find_embed_error S jc ec bot_id context mem max_stories e ec' n hemb,
      share_embed_error S ec bot_id context mem e ec' n hemb]
    exact ⟨rfl, rfl, rfl, rfl⟩
  · intro S jc ec bot_id context mem max_stories emb ec' n e e' hemb hs hs'
    rw [find_store_error S jc ec bot_id context mem max_stories emb ec' n hemb e hs,
      share_store_error S ec bot_id context mem emb ec' n hemb e' hs']
    exact ⟨rfl, rfl, rfl, rfl, rfl⟩
  · intro S context best mem e h
    unfold evaluate_story_sharing_appropriateness
    rw [h]

/-- Instance of `remote_failure_policy` at concrete failing services. -/
theorem remote_failure_policy_witness :
    vector_similarity_search store_fail_services.store_api "b" [1, 0] [] 6 (7/10)
        = ([], true) ∧
    vector_similarity_search (fun _ => .ok []) "b" [1, 0] [] 6 (7/10)
        = ([], false) ∧
    ((find_relevant_stories embed_fail_services [] [] "b" "ctx" wit_memory 3).result = []
      ∧ (should_share_story embed_fail_services [] "b" "ctx" wit_memory).result.should_share = false
      ∧ (should_share_story embed_fail_services [] "b" "ctx" wit_memory).result.confidence = 0
      ∧ (should_share_story embed_fail_services [] "b" "ctx" wit_memory).result.story_match = none) ∧
    ((find_relevant_stories store_fail_services [] [] "b" "ctx" wit_memory 3).result = []
      ∧ (find_relevant_stories store_fail_services [] [] "b" "ctx" wit_memory 3).search_error_logged = true
      ∧ (should_share_story store_fail_services [] "b" "ctx" wit_memory).result.should_share = false
      ∧ (should_share_story store_fail_services [] "b" "ctx" wit_memory).result.confidence = 0
      ∧ (should_share_story store_fail_services [] "b" "ctx" wit_memory).result.story_match = none) ∧
    evaluate_story_sharing_appropriateness store_fail_services "ctx" wit_candidate
        wit_memory
      = { story := candidate_story wit_candidate
          vector_similarity := wit_candidate.similarity
          llm_judge_score := wit_candidate.similarity
          reasoning := "Fallback to vector similarity"
          context_factors := ["vector_similarity"]
          distance := wit_candidate.distance } :=
  ⟨remote_failure_policy.1 store_fail_services.store_api "b" [1, 0] [] 6 (7/10)
     "store down" rfl,
   remote_failure_policy.2.1 (fun _ => .ok []) "b" [1, 0] [] 6 (7/10) rfl,
   remote_failure_policy.2.2.1 embed_fail_services [] [] "b" "ctx" wit_memory 3
     "embed down" [] 1 rfl,
   remote_failure_policy.2.2.2.1 store_fail_services [] [] "b" "ctx" wit_memory 3
     [1, 0] _ 1 "store down" "store down" rfl rfl rfl,
   remote_failure_policy.2.2.2.2 store_fail_services "ctx" wit_candidate
     wit_memory "judge down" rfl⟩

/-- C8: starting from a cache that does not hold `text`, a successful remote
embedding is cached, and an immediate second call for the same text is served
from the cache with zero remote calls and the same vector (one remote call in
total across the two calls); a failed remote call is reported (raised) with
the cache left unchanged — the cache is populated only on success. -/
theorem embedding_cache_idempotent (api : String → Except String (List ℚ))
    (cache : EmbedCache) (text : String) (hmiss : cache.lookup text = none) :
    (∀ v : List ℚ, api text = .ok v →
      generate_embedding api cache text = (.ok v, (text, v) :: cache, 1) ∧
      generate_embedding api ((text, v) :: cache) text
        = (.ok v, (text, v) :: cache, 0)) ∧
    (∀ e : String, api text = .error e →
      generate_embedding api cache text = (.error e, cache, 1)) := by
  constructor
  · intro v hok
    constructor
    · unfold generate_embedding
      rw [hmiss, hok]
    · unfold generate_embedding
      simp [List.lookup]
  · intro e herr
    unfold generate_embedding
    rw [hmiss, herr]

/-- Instance of `embedding_cache_idempotent` on an empty cache with a
successful constant embedding API. -/
theorem embedding_cache_idempotent_witness :
    generate_embedding (fun _ => .ok [2, 3]) [] "hello"
        = (.ok [2, 3], [("hello", [2, 3])], 1) ∧
    generate_embedding (fun _ => .ok [2, 3]) [("hello", [2, 3])] "hello"
        = (.ok [2, 3], [("hello", [2, 3])], 0) :=
  (embedding_cache_idempotent (fun _ => .ok [2, 3]) [] "hello" rfl).1 [2, 3] rfl

/-- The updated memory's message count is the old count plus one. -/
theorem update_chat_memory_count (mem : ChatMemory) (u b now : String) :
    (update_chat_memory mem u b now).message_count = mem.message_count + 1 := by
  simp only [update_chat_memory]
  split_ifs <;> rfl

/-- The updated memory's stage as a function of the incremented count. -/
theorem update_chat_memory_stage (mem : ChatMemory) (u b now : String) :
    (update_chat_memory mem u b now).relationship_stage =
      if mem.message_count + 1 > 20 then "familiar"
      else if mem.message_count + 1 > 5 then "warming_up"
      else mem.relationship_stage := by
  simp only [update_chat_memory]
  split_ifs <;> rfl

/-- A fresh memory that has already reached message count 20. -/
def wit_memory20 : ChatMemory := { wit_memory with message_count := 20 }

/-- A fresh memory that has already reached message count 5. -/
def wit_memory5 : ChatMemory := { wit_memory with message_count := 5 }

/-- C9: after `update_chat_memory` the stage resolves to "familiar" whenever
the (updated) message count exceeds 20, to "warming_up" whenever it is in
(5, 20], and a "new" memory stays "new" at counts up to 5; the default memory
is "new" at count 0 and satisfies the reachability invariant; the invariant
is preserved by every update; and under the invariant the stage rank along
new → warming_up → familiar never decreases across updates. -/
theorem relationship_stage_machine :
    (∀ (mem : ChatMemory) (u b now : String),
      ((update_chat_memory mem u b now).message_count > 20 →
        (update_chat_memory mem u b now).relationship_stage = "familiar") ∧
      (5 < (update_chat_memory mem u b now).message_count →
        (update_chat_memory mem u b now).message_count ≤ 20 →
        (update_chat_memory mem u b now).relationship_stage = "warming_up") ∧
      ((update_chat_memory mem u b now).message_count ≤ 5 →
        mem.relationship_stage = "new" →
        (update_chat_memory mem u b now).relationship_stage = "new")) ∧
    (∀ bot_id chat_id now : String,
      (default_chat_memory bot_id chat_id now).relationship_stage = "new"
      ∧ (default_chat_memory bot_id chat_id now).message_count = 0
      ∧ stage_consistent (default_chat_memory bot_id chat_id now)) ∧
    (∀ (mem : ChatMemory) (u b now : String), stage_consistent mem →
      stage_consistent (update_chat_memory mem u b now)) ∧
    (∀ (mem : ChatMemory) (u b now : String), stage_consistent mem →
      stage_rank mem.relationship_stage
        ≤ stage_rank (update_chat_memory mem u b now).relationship_stage) := by
  refine ⟨?_, ?_, ?_, ?_⟩
  · intro mem u b now
    rw [update_chat_memory_count, update_chat_memory_stage] at *
    refine ⟨fun h => if_pos h, fun h5 h20 => ?_, fun h5 hnew => ?_⟩
    · rw [if_neg (by omega), if_pos (by omega)]
    · rw [if_neg (by omega), if_neg (by omega), hnew]
  · intro bot_id chat_id now
    refine ⟨rfl, rfl, Or.inl rfl, ?_, ?_⟩ <;>
      · intro h
        simp [default_chat_memory] at h
  · intro mem u b now hc
    obtain ⟨hmem, hw, hf⟩ := hc
    unfold stage_consistent
    rw [update_chat_memory_count, update_chat_memory_stage]
    refine ⟨?_, ?_, ?_⟩
    · split_ifs with h20 h5
      · exact Or.inr (Or.inr rfl)
      · exact Or.inr (Or.inl rfl)
      · exact hmem
    · intro hst
      split_ifs at hst with h20 h5
      · simp at hst
      · omega
      · have := hw hst; omega
    · intro hst
      split_ifs at hst with h20 h5
      · omega
      · simp at hst
      · have := hf hst; omega
  · intro mem u b now hc
    obtain ⟨hmem, hw, hf⟩ := hc
    rw [update_chat_memory_stage]
    split_ifs with h20 h5
    · rcases hmem with h | h | h <;> rw [h] <;> decide
    · rcases hmem with h | h | h
      · rw [h] <;> decide
      · rw [h] <;> decide
      · exact absurd (hf h) (by omega)
    · exact le_refl _

/-- Instance of `relationship_stage_machine`: an update at count 20 resolves
to "familiar" at count 21, one at count 5 resolves to "warming_up" at count
6, a fresh "new" memory stays "new" after its first update, and the default
memory starts consistent at count 0 with stage "new". -/
theorem relationship_stage_machine_witness :
    (update_chat_memory wit_memory20 "hi" "yo" "t1").relationship_stage
        = "familiar" ∧
    (update_chat_memory wit_memory5 "hi" "yo" "t1").relationship_stage
        = "warming_up" ∧
    (update_chat_memory wit_memory "hi" "yo" "t1").relationship_stage = "new" ∧
    (default_chat_memory "b" "c1" "t0").relationship_stage = "new" ∧
    (default_chat_memory "b" "c1" "t0").message_count = 0 ∧
    stage_rank wit_memory.relationship_stage
      ≤ stage_rank (update_chat_memory wit_memory "hi" "yo" "t1").relationship_stage :=
  ⟨((relationship_stage_machine.1 wit_memory20 "hi" "yo" "t1").1) (by decide),
   ((relationship_stage_machine.1 wit_memory5 "hi" "yo" "t1").2.1) (by decide)
     (by decide),
   ((relationship_stage_machine.1 wit_memory "hi" "yo" "t1").2.2) (by decide) rfl,
   (relationship_stage_machine.2.1 "b" "c1" "t0").1,
   (relationship_stage_machine.2.1 "b" "c1" "t0").2.1,
   relationship_stage_machine.2.2.2 wit_memory "hi" "yo" "t1"
     ⟨Or.inl rfl, by decide, by decide⟩⟩
